import Mathlib

/-!
Verification of the stage-mode interaction session state machine from
`Source/WebKit/UIProcess/Model/StageModeInteractionState.h`.

The header declares the data model only: the enum `StageModeSessionState`
and the plain struct `StageModeSession` with in-class member initializers
(`state { StageModeSessionState::Idle }`, `elementID { std::nullopt }`,
`transform` left uninitialized).  The lifecycle operations (`begin`,
`resolveTarget`, `updateTransform`, `end`) are specified in the design
document only; they are modelled here from the spec's operation contracts.
-/

namespace WebKit

/-- The element identifier from `WebCore::ElementTargetingTypes.h`
(`WebCore::ElementIdentifier`), an opaque 64-bit object identifier used
here only as a lookup key; modelled as `Nat` since no arithmetic is
performed on it. -/
abbrev ElementIdentifier := Nat

/-- The `simd_float4x4` transform matrix.  The session code never inspects
or combines it, only stores it, so it is modelled as a 4x4 matrix of
`Float` values. -/
abbrev Simd_float4x4 := Fin 4 → Fin 4 → Float

/-- `enum class StageModeSessionState : uint8_t` with the three
enumerators `Preparing = 0`, `Active = 1`, `Idle = 2`. -/
inductive StageModeSessionState where
  /-- Waiting for hit test result from Web Process. -/
  | Preparing
  /-- Receiving and updating based on changes to gesture. -/
  | Active
  /-- Terminated because gesture ended. -/
  | Idle
deriving DecidableEq, Repr

/-- `struct StageModeSession`: public fields `state` (default
`StageModeSessionState::Idle`), `transform` (a `simd_float4x4`, no
initializer, hence indeterminate on default construction) and
`elementID` (default `std::nullopt`). -/
structure StageModeSession where
  state : StageModeSessionState
  transform : Simd_float4x4
  elementID : Option ElementIdentifier

/-- Default construction of `StageModeSession`.  The C++ member
initializers give `state = Idle` and `elementID = nullopt`; `transform`
has no initializer, so its indeterminate value is taken as a parameter. -/
def defaultSession (t : Simd_float4x4) : StageModeSession :=
  { state := .Idle, transform := t, elementID := none }

/-- Modelled from the spec: `begin()` (not present in `src/`, which holds
only the header) "constructs a session in `Preparing` with no target".
The transform remains indeterminate and is taken as a parameter. -/
def begin (t : Simd_float4x4) : StageModeSession :=
  { state := .Preparing, transform := t, elementID := none }

/-- Modelled from the spec: `resolveTarget(elementID)` (not present in
`src/`) is "legal only while `Preparing`; sets `elementID`, transitions to
`Active`"; out-of-order calls are rejected as a defensive no-op (spec
sections 5 and 7). -/
def resolveTarget (s : StageModeSession) (id : ElementIdentifier) : StageModeSession :=
  match s.state with
  | .Preparing => { s with state := .Active, elementID := some id }
  | _ => s

/-- Modelled from the spec: `updateTransform(newTransform)` (not present
in `src/`) is "legal only while `Active`; replaces `transform`";
out-of-order calls are rejected as a defensive no-op (spec section 7). -/
def updateTransform (s : StageModeSession) (t : Simd_float4x4) : StageModeSession :=
  match s.state with
  | .Active => { s with transform := t }
  | _ => s

/-- Modelled from the spec: `end()` (not present in `src/`) is "legal from
any state; transitions to `Idle` unconditionally".  Named `endSession`
because `end` is a Lean keyword. -/
def endSession (s : StageModeSession) : StageModeSession :=
  { s with state := .Idle }

/-- Direct assignment to the public `state` field of the struct (C++
exposes the fields publicly with no mutators). -/
def setState (s : StageModeSession) (v : StageModeSessionState) : StageModeSession :=
  { s with state := v }

/-- Direct assignment to the public `transform` field of the struct. -/
def setTransform (s : StageModeSession) (t : Simd_float4x4) : StageModeSession :=
  { s with transform := t }

/-- Direct assignment to the public `elementID` field of the struct. -/
def setElementID (s : StageModeSession) (id : Option ElementIdentifier) : StageModeSession :=
  { s with elementID := id }

/-- One lifecycle operation applied to a session, for reasoning about
operation sequences. -/
inductive SessionOp where
  | resolveTarget (id : ElementIdentifier)
  | updateTransform (t : Simd_float4x4)
  | endOp

/-- Apply one lifecycle operation. -/
def applyOp (s : StageModeSession) : SessionOp → StageModeSession
  | .resolveTarget id => resolveTarget s id
  | .updateTransform t => updateTransform s t
  | .endOp => endSession s

/-- Apply a sequence of lifecycle operations, first element first. -/
def applyOps (s : StageModeSession) (ops : List SessionOp) : StageModeSession :=
  ops.foldl applyOp s

/-- A fixed concrete transform used to instantiate witnesses. -/
def zeroTransform : Simd_float4x4 := fun _ _ => 0.0

/-- A second fixed concrete transform used to instantiate witnesses. -/
def oneTransform : Simd_float4x4 := fun _ _ => 1.0

/-- Applying one operation to a session that is not `Preparing` leaves
`elementID` unchanged and cannot bring the session back to `Preparing`. -/
theorem applyOp_notPreparing (s : StageModeSession) (op : SessionOp)
    (h : s.state ≠ .Preparing) :
    (applyOp s op).elementID = s.elementID ∧ (applyOp s op).state ≠ .Preparing := by
  cases op with
  | resolveTarget id =>
      cases hs : s.state with
      | Preparing => exact absurd hs h
      | Active => simp [applyOp, resolveTarget, hs]
      | Idle => simp [applyOp, resolveTarget, hs]
  | updateTransform t =>
      cases hs : s.state with
      | Preparing => exact absurd hs h
      | Active => simp [applyOp, updateTransform, hs]
      | Idle => simp [applyOp, updateTransform, hs]
  | endOp => simp [applyOp, endSession]

/-- Applying any sequence of operations to a session that is not
`Preparing` leaves `elementID` unchanged and never reaches `Preparing`. -/
theorem applyOps_notPreparing (ops : List SessionOp) (s : StageModeSession)
    (h : s.state ≠ .Preparing) :
    (applyOps s ops).elementID = s.elementID ∧ (applyOps s ops).state ≠ .Preparing := by
  induction ops generalizing s with
  | nil => exact ⟨rfl, h⟩
  | cons op ops ih =>
      have h1 := applyOp_notPreparing s op h
      have h2 := ih (applyOp s op) h1.2
      simp only [applyOps, List.foldl_cons] at h2 ⊢
      exact ⟨h2.1.trans h1.1, h2.2⟩

/-- `updateTransform` never changes the session's state. -/
theorem updateTransform_state (s : StageModeSession) (t : Simd_float4x4) :
    (updateTransform s t).state = s.state := by
  cases hs : s.state <;> simp [updateTransform, hs]

/-- A `foldl` of `updateTransform` calls never changes the state. -/
theorem foldl_updateTransform_state (ts : List Simd_float4x4) (s : StageModeSession) :
    (List.foldl updateTransform s ts).state = s.state := by
  induction ts generalizing s with
  | nil => rfl
  | cons t ts ih => rw [List.foldl_cons, ih, updateTransform_state]

/-- Claim C1: every freshly constructed session (the result of `begin()`)
has `state == Preparing` and `elementID == none`. -/
theorem begin_preparing_no_target (t : Simd_float4x4) :
    (begin t).state = .Preparing ∧ (begin t).elementID = none :=
  ⟨rfl, rfl⟩

/-- Claim C2: a default-constructed `StageModeSession` has
`state == Idle` and `elementID == nullopt`, whatever the indeterminate
value of `transform`. -/
theorem default_session_idle (t : Simd_float4x4) :
    (defaultSession t).state = .Idle ∧ (defaultSession t).elementID = none :=
  ⟨rfl, rfl⟩

/-- `resolveTarget` on a session that is not `Preparing` is a complete
no-op. -/
theorem resolveTarget_noop (s : StageModeSession) (id : ElementIdentifier)
    (h : s.state ≠ .Preparing) : resolveTarget s id = s := by
  cases hs : s.state with
  | Preparing => exact absurd hs h
  | Active => simp [resolveTarget, hs]
  | Idle => simp [resolveTarget, hs]

/-- Claim C3: for every session in state `Preparing`, one `resolveTarget id`
call yields `state == Active` and `elementID == id`; a second
`resolveTarget` call is rejected (a complete no-op), so `elementID` is
unchanged. -/
theorem resolveTarget_once (s : StageModeSession) (id id2 : ElementIdentifier)
    (h : s.state = .Preparing) :
    (resolveTarget s id).state = .Active ∧ (resolveTarget s id).elementID = some id ∧
      resolveTarget (resolveTarget s id) id2 = resolveTarget s id := by
  refine ⟨by simp [resolveTarget, h], by simp [resolveTarget, h], ?_⟩
  have hs : (resolveTarget s id).state = .Active := by simp [resolveTarget, h]
  exact resolveTarget_noop _ id2 (by rw [hs]; simp)

/-- Concrete witness for C3: a session begun and resolved to element 5,
with a second resolve to 7 rejected. -/
theorem resolveTarget_once_witness :
    (resolveTarget (begin zeroTransform) 5).state = .Active ∧
      (resolveTarget (begin zeroTransform) 5).elementID = some 5 ∧
      resolveTarget (resolveTarget (begin zeroTransform) 5) 7 =
        resolveTarget (begin zeroTransform) 5 :=
  resolveTarget_once (begin zeroTransform) 5 7 rfl

/-- Claim C4: for every sequence of `updateTransform` calls applied while
the session is `Active`, the transform afterwards equals the last applied
value (each call overwrites, nothing accumulates). -/
theorem updateTransform_last (s : StageModeSession) (ts : List Simd_float4x4)
    (t : Simd_float4x4) (h : s.state = .Active) :
    (List.foldl updateTransform s (ts ++ [t])).transform = t := by
  have hstate : (List.foldl updateTransform s ts).state = .Active := by
    rw [foldl_updateTransform_state, h]
  rw [List.foldl_append, List.foldl_cons, List.foldl_nil]
  simp [updateTransform, hstate]

/-- Concrete witness for C4: two updates applied to an active session; the
stored transform is the second one. -/
theorem updateTransform_last_witness :
    (List.foldl updateTransform (resolveTarget (begin zeroTransform) 1)
        ([zeroTransform] ++ [oneTransform])).transform = oneTransform :=
  updateTransform_last (resolveTarget (begin zeroTransform) 1) [zeroTransform]
    oneTransform rfl

/-- Claim C5: `end()` is legal from every state, yields `Idle`
unconditionally, and is idempotent: `n + 1` calls produce exactly the same
session value as one call. -/
theorem endSession_idle_idempotent (s : StageModeSession) (n : Nat) :
    (endSession s).state = .Idle ∧ endSession^[n] (endSession s) = endSession s := by
  refine ⟨rfl, ?_⟩
  induction n with
  | zero => rfl
  | succ n ih => rw [Function.iterate_succ_apply]; exact ih

/-- Claim C6: `updateTransform` on a session whose state is `Preparing` or
`Idle` is rejected as a complete no-op: transform and state are unchanged. -/
theorem updateTransform_rejected (s : StageModeSession) (t : Simd_float4x4)
    (h : s.state = .Preparing ∨ s.state = .Idle) :
    updateTransform s t = s := by
  rcases h with h | h <;> simp [updateTransform, h]

/-- Concrete witness for C6: an update on a default (idle) session is a
no-op. -/
theorem updateTransform_rejected_witness :
    updateTransform (defaultSession zeroTransform) oneTransform =
      defaultSession zeroTransform :=
  updateTransform_rejected (defaultSession zeroTransform) oneTransform (Or.inr rfl)

/-- Claim C7: a session never leaves `Idle`: every operation on an idle
session is a no-op; in particular after `begin → end → resolveTarget E1`
the state remains `Idle` and `elementID` remains `none`. -/
theorem idle_absorbing (s : StageModeSession) (op : SessionOp) (t : Simd_float4x4)
    (e : ElementIdentifier) (h : s.state = .Idle) :
    applyOp s op = s ∧ (resolveTarget (endSession (begin t)) e).state = .Idle ∧
      (resolveTarget (endSession (begin t)) e).elementID = none := by
  obtain ⟨st, tr, eid⟩ := s
  subst h
  exact ⟨by cases op <;> rfl, rfl, rfl⟩

/-- Concrete witness for C7: ending on a default (idle) session is a no-op,
and a late `resolveTarget 3` after `begin → end` leaves `Idle`/`none`. -/
theorem idle_absorbing_witness :
    applyOp (defaultSession zeroTransform) SessionOp.endOp = defaultSession zeroTransform ∧
      (resolveTarget (endSession (begin zeroTransform)) 3).state = .Idle ∧
      (resolveTarget (endSession (begin zeroTransform)) 3).elementID = none :=
  idle_absorbing (defaultSession zeroTransform) SessionOp.endOp zeroTransform 3 rfl

/-- Claim C8: once `elementID` has been set by `resolveTarget`, it is
immutable for the rest of the session's lifetime: no subsequent sequence of
operations changes it. -/
theorem elementID_immutable (s : StageModeSession) (id : ElementIdentifier)
    (ops : List SessionOp) (h : s.state = .Preparing) :
    (applyOps (resolveTarget s id) ops).elementID = some id := by
  have hs : (resolveTarget s id).state = .Active := by simp [resolveTarget, h]
  have he : (resolveTarget s id).elementID = some id := by simp [resolveTarget, h]
  have hnp : (resolveTarget s id).state ≠ .Preparing := by rw [hs]; simp
  exact ((applyOps_notPreparing ops _ hnp).1).trans he

/-- Concrete witness for C8: element 4, once resolved, survives a
further resolve, an update, and an end. -/
theorem elementID_immutable_witness :
    (applyOps (resolveTarget (begin zeroTransform) 4)
        [SessionOp.resolveTarget 9, SessionOp.updateTransform oneTransform,
          SessionOp.endOp]).elementID = some 4 :=
  elementID_immutable (begin zeroTransform) 4
    [SessionOp.resolveTarget 9, SessionOp.updateTransform oneTransform,
      SessionOp.endOp] rfl

/-- Claim C9: the session state is always exactly one of the three values
`Preparing`, `Active`, `Idle`, and the three are pairwise distinct — a
single tagged enum with no other representable combination. -/
theorem state_enum_exhaustive (st : StageModeSessionState) :
    (st = .Preparing ∨ st = .Active ∨ st = .Idle) ∧
      StageModeSessionState.Preparing ≠ StageModeSessionState.Active ∧
      StageModeSessionState.Active ≠ StageModeSessionState.Idle ∧
      StageModeSessionState.Preparing ≠ StageModeSessionState.Idle :=
  ⟨by cases st <;> simp, by simp, by simp, by simp⟩

/-- Claim C10: the struct performs no validation: direct assignment to
each public field succeeds unconditionally in every state, and the other
fields are untouched. -/
theorem fields_assignable (s : StageModeSession) (v : StageModeSessionState)
    (t : Simd_float4x4) (id : Option ElementIdentifier) :
    (setState s v).state = v ∧ (setTransform s t).transform = t ∧
      (setElementID s id).elementID = id ∧
      (setState s v).elementID = s.elementID ∧ (setState s v).transform = s.transform ∧
      (setTransform s t).state = s.state ∧ (setElementID s id).state = s.state :=
  ⟨rfl, rfl, rfl, rfl, rfl, rfl, rfl⟩

end WebKit
